import Mathlib

/-!
Verification of the incremental multi-stage trail-data acquisition and merge
protocol of the EcoTrek hiking-guide app.

The embedding below is a shallow translation of the TypeScript source:

* `src/hiking/types.ts` — the `TrailData` record and its nested types.
* `src/unnamed/part_000` (the root `App` component) — `findLocalTrail`,
  `handleSearch` and `handleSaveTrail`.
* `src/hiking/services/geminiService.ts` — `safeParseJSON` and the
  routes-stage result handling (`generateTrailRoutes`).

JavaScript strings are modelled as Lean `String`s with explicit `List Char`
implementations of the JS methods used by the source (`toLowerCase`, `trim`,
`includes`, `replace`), so that every definition is executable and provable
by structural induction.  JSON numbers carried opaquely by the records
(coordinates, difficulty) are modelled as `Int`; no claim computes on them.

The single-threaded event-loop concurrency of the source is modelled by an
explicit resolution order (`StageOrder`) for the two background stages and a
trace of observable events (`Event`): state-setter calls, provider calls,
stage settlement (a stage's `.then`/`.catch` handler running) and store
writes.
-/

/-! ## JS string operations, modelled on `List Char` -/

/-- Whether `pat` is an initial segment of `l` (helper for substring search). -/
def leadsWith : List Char → List Char → Bool
  | [], _ => true
  | _ :: _, [] => false
  | a :: as, b :: bs => a == b && leadsWith as bs

/-- Whether `pat` occurs contiguously inside `l`: the embedding of
JavaScript `String.prototype.includes` on char lists. -/
def occursIn (pat : List Char) : List Char → Bool
  | [] => leadsWith pat []
  | c :: rest => leadsWith pat (c :: rest) || occursIn pat rest

/-- JS `s.includes(pat)`. -/
def jsIncludes (s pat : String) : Bool :=
  occursIn pat.data s.data

/-- JS `s.toLowerCase()` (per-character lowering, as in the source's use on
trail names and queries). -/
def jsToLower (s : String) : String :=
  String.mk (s.data.map Char.toLower)

/-- JS `s.trim()`: strip leading and trailing whitespace. -/
def jsTrim (s : String) : String :=
  String.mk (((s.data.dropWhile Char.isWhitespace).reverse.dropWhile
      Char.isWhitespace).reverse)

/-- Worker for `replaceAllChars`, structurally recursive on a fuel argument
so that it evaluates in the kernel.  Each step consumes at least one input
character and exactly one unit of fuel, so fuel `l.length` never runs out
and the `0` branch is unreachable for the wrapper below. -/
def replaceAllCharsFuel (pat rep : List Char) : Nat → List Char → List Char
  | 0, l => l
  | _ + 1, [] => []
  | fuel + 1, c :: rest =>
    if leadsWith pat (c :: rest) && pat.length > 0 then
      rep ++ replaceAllCharsFuel pat rep fuel (rest.drop (pat.length - 1))
    else
      c :: replaceAllCharsFuel pat rep fuel rest

/-- Replace every (non-overlapping, left-to-right) occurrence of `pat` by
`rep`: the embedding of JS `s.replace(/pat/g, rep)` as used by
`safeParseJSON`. -/
def replaceAllChars (pat rep l : List Char) : List Char :=
  replaceAllCharsFuel pat rep l.length l

/-! ## Data model (`src/hiking/types.ts`) -/

/-- `centerCoordinates` object of `TrailData` (latitude/longitude carried
opaquely; JSON numbers modelled as `Int`). -/
structure Coord where
  latitude : Int
  longitude : Int
deriving DecidableEq, Repr

/-- `RouteNode` of `types.ts`: one waypoint of a route timeline. -/
structure RouteNode where
  name : String
  nodeType : Option String := none
  coordinates : Option (Int × Int) := none
  distance : Option String := none
  time : Option String := none
  description : Option String := none
  highlights : Option String := none
  image : Option String := none
deriving DecidableEq, Repr

/-- `RouteSegment` of `types.ts`: one named walking option. -/
structure RouteSegment where
  name : String
  distance : String
  time : String
  description : String
  landmarks : String
  timeline : Option (List RouteNode) := none
  path : Option (List (Int × Int)) := none
deriving DecidableEq, Repr

/-- `GearItem` of `types.ts`. -/
structure GearItem where
  item : String
  reason : Option String := none
deriving DecidableEq, Repr

/-- The `gear` object of `TrailData`. -/
structure Gear where
  essential : List GearItem
  recommended : List GearItem
deriving DecidableEq, Repr

/-- `TrailData` of `types.ts`: required basic fields are plain, the
staged-loading fields are `Option` (JS `undefined` = `none`). -/
structure TrailData where
  name : String
  location : String
  centerCoordinates : Option Coord := none
  highlight : String
  difficulty : Int
  duration : String
  length : String
  elevationGain : String
  description : Option String := none
  story : Option String := none
  routeSegments : Option (List RouteSegment) := none
  gear : Option Gear := none
  safetyTips : Option (List String) := none
  bestSeason : Option String := none
  communityTips : Option (List String) := none
deriving DecidableEq, Repr

/-- The payload of a successful basic stage, per `basicSchema` of
`geminiService.ts` (the seven required scalar fields the orchestrator reads
with non-null assertions, plus the pass-through `centerCoordinates`). -/
structure BasicFields where
  name : String
  location : String
  centerCoordinates : Option Coord := none
  highlight : String
  difficulty : Int
  duration : String
  length : String
  elevationGain : String
deriving DecidableEq, Repr

/-- The payload of a successful misc stage, per `miscSchema` of
`geminiService.ts` (all six fields required by the response schema). -/
structure MiscFields where
  description : String
  story : String
  gear : Gear
  safetyTips : List String
  bestSeason : String
  communityTips : List String
deriving DecidableEq, Repr

/-- The payload of a successful routes stage, per `routesSchema` of
`geminiService.ts`. -/
structure RoutesFields where
  routeSegments : List RouteSegment
deriving DecidableEq, Repr

/-! ## The record store (`localStorage`) -/

/-- What a stored value looks like to `findLocalTrail` after
`localStorage.getItem` + `JSON.parse`: `bad` covers a missing value, a
JSON-parse failure and a parsed `null` (all skipped by the scan); `good t`
is a value that parses as a trail record (the scan additionally skips
`good t` when `t.name` is empty, JS `!data.name`). -/
inductive EntryVal where
  | bad : EntryVal
  | good : TrailData → EntryVal
deriving DecidableEq, Repr

/-- The store: `localStorage` as an ordered key/value list (enumeration
order = list order). -/
abbrev Store := List (String × EntryVal)

/-- The fixed namespace of persisted community trail records
(`ecotrek_community_` in the source). -/
def communityNs : String := "ecotrek_community_"

/-- `localStorage.setItem`: overwrite in place when the key exists,
otherwise append. -/
def storeSetItem (store : Store) (key : String) (t : TrailData) : Store :=
  if store.any (fun e => e.1 == key) then
    store.map (fun e => if e.1 == key then (key, EntryVal.good t) else e)
  else
    store ++ [(key, EntryVal.good t)]

/-! ## `findLocalTrail` (part_000, lines 72–91) -/

/-- JS `key.startsWith('ecotrek_community_')` (line 76), on char lists so
that it evaluates in the kernel. -/
def keyInNs (k : String) : Bool :=
  leadsWith communityNs.data k.data

/-- The bidirectional case-insensitive substring test of line 84:
`trailName.includes(normalizedQuery) || normalizedQuery.includes(trailName)`,
where `nq` is the normalized query and `trailName` the lower-cased record
name. -/
def entryMatches (nq : List Char) (t : TrailData) : Bool :=
  occursIn nq (jsToLower t.name).data || occursIn (jsToLower t.name).data nq

/-- The scan loop of `findLocalTrail`: iterate over the store keys in
enumeration order; consider only keys under `communityNs`; skip entries that
are missing/unparseable (`bad`) or whose name is falsy; return the first
bidirectional substring match. -/
def findLoop (nq : List Char) : Store → Option TrailData
  | [] => none
  | (k, v) :: rest =>
    if keyInNs k then
      match v with
      | .bad => findLoop nq rest
      | .good t =>
        if t.name == "" then findLoop nq rest
        else if entryMatches nq t then some t
        else findLoop nq rest
    else findLoop nq rest

/-- `findLocalTrail(query)`: normalize the query with
`query.toLowerCase().trim()` and scan the store. -/
def findLocalTrail (store : Store) (query : String) : Option TrailData :=
  findLoop (jsTrim (jsToLower query)).data store

/-- A store entry that the scan would accept as a hit for normalized query
`nq`: key under the namespace, value parses, non-empty name, bidirectional
substring match. -/
def entryHit (nq : List Char) (e : String × EntryVal) : Bool :=
  keyInNs e.1 &&
    (match e.2 with
     | .bad => false
     | .good t => !(t.name == "") && entryMatches nq t)

/-- The record carried by a store entry, if any. -/
def entryRecord (e : String × EntryVal) : Option TrailData :=
  match e.2 with
  | .bad => none
  | .good t => some t

/-- A store entry whose value parses as a record with a truthy name
(everything else is silently skipped by the fuzzy scan). -/
def entryParses (e : String × EntryVal) : Bool :=
  match e.2 with
  | .bad => false
  | .good t => !(t.name == "")

/-! ## The merge orchestrator (`handleSearch`, part_000 lines 93–173) -/

/-- The `view` state of the `App` component. -/
inductive View where
  | home : View
  | guide : View
  | saved : View
deriving DecidableEq, Repr

/-- The two background stages of step 3 of `handleSearch`. -/
inductive Stage where
  | misc : Stage
  | routes : Stage
deriving DecidableEq, Repr

/-- Observable events of one `handleSearch` run, in execution order:
React state-setter calls, the three provider calls, a background stage's
`.then`/`.catch` handler running (`settled s ok`, where a failed stage is
caught, logged and substituted by `{}`), `localStorage.setItem`
(`storeSet`), and the user-facing `alert`. -/
inductive Event where
  | setLoading : Bool → Event
  | setCurrentTrail : Option TrailData → Event
  | setView : View → Event
  | callBasic : String → Event
  | callMisc : String → BasicFields → Event
  | callRoutes : String → BasicFields → Event
  | settled : Stage → Bool → Event
  | storeSet : String → TrailData → Event
  | alert : String → Event
deriving DecidableEq, Repr

/-- The component state touched by `handleSearch`. -/
structure AppState where
  store : Store
  currentTrail : Option TrailData := none
  view : View := .home
  isLoading : Bool := false
deriving DecidableEq, Repr

/-- Since the two background stages race, a run is parameterized by which
one settles first (the source guarantees no order). -/
inductive StageOrder where
  | miscFirst : StageOrder
  | routesFirst : StageOrder
deriving DecidableEq, Repr

/-- The alert of the catch block at line 170. -/
def couldNotFindMsg : String := "哎呀！向导似乎找不到这条路。请尝试输入更清晰的名称。"

/-- The `partialTrail` built at lines 109–126: basic fields copied from the
basic-stage result (the source's non-null assertions), `centerCoordinates`
passed through, and every misc/route field explicitly absent. -/
def mkBasicTrail (basicInfo : BasicFields) : TrailData :=
  { name := basicInfo.name
    location := basicInfo.location
    highlight := basicInfo.highlight
    difficulty := basicInfo.difficulty
    duration := basicInfo.duration
    length := basicInfo.length
    elevationGain := basicInfo.elevationGain
    centerCoordinates := basicInfo.centerCoordinates
    description := none
    story := none
    routeSegments := none
    gear := none
    safetyTips := none
    bestSeason := none
    communityTips := none }

/-- The shallow merge `{...prev, ...misc}` of line 139 for a successful misc
result (all six fields present per `miscSchema`). -/
def applyMisc (prev : TrailData) (misc : MiscFields) : TrailData :=
  { prev with
    description := some misc.description
    story := some misc.story
    gear := some misc.gear
    safetyTips := some misc.safetyTips
    bestSeason := some misc.bestSeason
    communityTips := some misc.communityTips }

/-- The shallow merge `{...prev, ...routes}` of line 153 for a successful
routes result. -/
def applyRoutes (prev : TrailData) (routes : RoutesFields) : TrailData :=
  { prev with routeSegments := some routes.routeSegments }

/-- Merge with a settled misc value: a failed stage settles to `{}` (the
`.catch` at line 143), whose spread is a no-op. -/
def applyMiscOpt (prev : TrailData) : Option MiscFields → TrailData
  | some misc => applyMisc prev misc
  | none => prev

/-- Merge with a settled routes value (`.catch` at line 157 settles to
`{}`). -/
def applyRoutesOpt (prev : TrailData) : Option RoutesFields → TrailData
  | some routes => applyRoutes prev routes
  | none => prev

/-- The value a stage's promise settles to: its payload on success, the
substituted `{}` (here `none`) on a caught failure. -/
def settledValue {α : Type} : Except String α → Option α
  | .ok a => some a
  | .error _ => none

/-- The misc stage's `.then`/`.catch` handler (lines 135–146): on success,
merge into the current shared record via the functional state update
`setCurrentTrail(prev => ...)`; on failure, log and leave state unchanged. -/
def settleMisc (st : AppState) (miscR : Except String MiscFields) :
    List Event × AppState :=
  match miscR with
  | .ok misc =>
    ([.setCurrentTrail (st.currentTrail.map (fun prev => applyMisc prev misc)),
      .settled .misc true],
     { st with currentTrail := st.currentTrail.map (fun prev => applyMisc prev misc) })
  | .error _ => ([.settled .misc false], st)

/-- The routes stage's `.then`/`.catch` handler (lines 149–160). -/
def settleRoutes (st : AppState) (routesR : Except String RoutesFields) :
    List Event × AppState :=
  match routesR with
  | .ok routes =>
    ([.setCurrentTrail (st.currentTrail.map (fun prev => applyRoutes prev routes)),
      .settled .routes true],
     { st with currentTrail := st.currentTrail.map (fun prev => applyRoutes prev routes) })
  | .error _ => ([.settled .routes false], st)

/-- Run both background stage handlers in the order the event loop happens
to deliver them. -/
def runStages (st : AppState) (miscR : Except String MiscFields)
    (routesR : Except String RoutesFields) (ord : StageOrder) :
    List Event × AppState :=
  match ord with
  | .miscFirst =>
    ((settleMisc st miscR).1 ++ (settleRoutes (settleMisc st miscR).2 routesR).1,
     (settleRoutes (settleMisc st miscR).2 routesR).2)
  | .routesFirst =>
    ((settleRoutes st routesR).1 ++ (settleMisc (settleRoutes st routesR).2 miscR).1,
     (settleMisc (settleRoutes st routesR).2 miscR).2)

/-- The `Promise.all` callback's final record (line 164):
`{...partialTrail, ...misc, ...routes}` — built from the basic snapshot and
the two settled values, misc spread before routes. -/
def finalMergedTrail (basicInfo : BasicFields)
    (miscR : Except String MiscFields) (routesR : Except String RoutesFields) :
    TrailData :=
  applyRoutesOpt (applyMiscOpt (mkBasicTrail basicInfo) (settledValue miscR))
    (settledValue routesR)

/-- The state at the BASIC_READY unlock point (lines 128–130): the partial
record is shown, the guide view opens, loading ends. -/
def basicReadyState (st : AppState) (basicInfo : BasicFields) : AppState :=
  { st with
    currentTrail := some (mkBasicTrail basicInfo)
    view := .guide
    isLoading := false }

/-- `handleSearch(query)` (lines 93–173), as a pure function of the current
state, the query, the outcome of each of the three provider operations, and
the settlement order of the two background stages.  It returns the trace of
observable events and the resulting state.

Control flow mirrors the source: set loading; check the cache and
short-circuit on a hit; await the basic fetch, whose failure falls to the
catch block (alert, stop loading, nothing else); on success show the
partial record (UI unlock), launch both background stages, let them settle
in `ord` order, and only then — in the `Promise.all` callback — write the
fully merged record to the store under `communityNs ++ name`. -/
def handleSearch (st : AppState) (query : String)
    (basicR : Except String BasicFields)
    (miscR : Except String MiscFields)
    (routesR : Except String RoutesFields)
    (ord : StageOrder) : List Event × AppState :=
  match findLocalTrail st.store query with
  | some cachedData =>
    ([.setLoading true, .setCurrentTrail (some cachedData), .setView .guide,
      .setLoading false],
     { st with currentTrail := some cachedData, view := .guide, isLoading := false })
  | none =>
    match basicR with
    | .error _ =>
      ([.setLoading true, .callBasic query, .alert couldNotFindMsg,
        .setLoading false],
       { st with isLoading := false })
    | .ok basicInfo =>
      ([Event.setLoading true, Event.callBasic query,
        Event.setCurrentTrail (some (mkBasicTrail basicInfo)),
        Event.setView .guide, Event.setLoading false,
        Event.callMisc query basicInfo, Event.callRoutes query basicInfo]
        ++ (runStages
              { st with currentTrail := some (mkBasicTrail basicInfo),
                        view := .guide, isLoading := false }
              miscR routesR ord).1
        ++ [Event.storeSet (communityNs ++ (finalMergedTrail basicInfo miscR routesR).name)
              (finalMergedTrail basicInfo miscR routesR)],
       { (runStages
            { st with currentTrail := some (mkBasicTrail basicInfo),
                      view := .guide, isLoading := false }
            miscR routesR ord).2 with
         store := storeSetItem
           (runStages
              { st with currentTrail := some (mkBasicTrail basicInfo),
                        view := .guide, isLoading := false }
              miscR routesR ord).2.store
           (communityNs ++ (finalMergedTrail basicInfo miscR routesR).name)
           (finalMergedTrail basicInfo miscR routesR) })

/-- The store writes of a trace. -/
def storeWrites (tr : List Event) : List Event :=
  tr.filter fun e =>
    match e with
    | .storeSet _ _ => true
    | _ => false

/-- Whether an event is one of the three content-provider operations. -/
def isProviderCall : Event → Bool
  | .callBasic _ => true
  | .callMisc _ _ => true
  | .callRoutes _ _ => true
  | _ => false

/-! ## The saved-plans ledger (`handleSaveTrail`, part_000 lines 175–181) -/

/-- `handleSaveTrail(trail)`: append when no entry shares the name
(`savedTrails.find(t => t.name === trail.name)` empty), otherwise replace
matching entries in place via `map`. -/
def handleSaveTrail (savedTrails : List TrailData) (trail : TrailData) :
    List TrailData :=
  if (savedTrails.find? (fun t => t.name == trail.name)).isNone then
    savedTrails ++ [trail]
  else
    savedTrails.map (fun t => if t.name == trail.name then trail else t)

/-! ## The generator parse layer (`geminiService.ts`) -/

/-- A JSON value, for the routes-stage result which the source returns
unvalidated after `JSON.parse`. -/
inductive Json where
  | null : Json
  | bool : Bool → Json
  | num : Int → Json
  | str : String → Json
  | arr : List Json → Json
  | obj : List (String × Json) → Json

/-- Object-field lookup on a JSON value. -/
def jsonField : Json → String → Option Json
  | .obj fields, k => (fields.find? (fun p => p.1 == k)).map (fun p => p.2)
  | _, _ => none

/-- The fence stripping of `safeParseJSON` (line 13):
`text.replace(/```json/g, '').replace(/```/g, '').trim()`. -/
def stripCodeFences (s : String) : String :=
  jsTrim (String.mk (replaceAllChars "```".data []
    (replaceAllChars "```json".data [] s.data)))

/-- `safeParseJSON(text)` (lines 10–20): throw `"No response from AI"` on a
falsy text (absent or empty), strip code fences, and `JSON.parse` — the
parse itself is the external `parse` oracle, whose failure becomes
`"Invalid JSON response from AI"`.  No validation beyond JSON well-formedness
is performed. -/
def safeParseJSON (parse : String → Option Json) (text : Option String) :
    Except String Json :=
  match text with
  | none => .error "No response from AI"
  | some t =>
    if t == "" then .error "No response from AI"
    else
      match parse (stripCodeFences t) with
      | some j => .ok j
      | none => .error "Invalid JSON response from AI"

/-- The local result handling of `generateTrailRoutes` (lines 166–192): the
provider call is external (its response text is the input here); the
function's only processing of the response is `safeParseJSON`, and the
parsed value is returned as the stage result by a type-cast with no
structural check. -/
def generateTrailRoutes (parse : String → Option Json) (respText : Option String) :
    Except String Json :=
  safeParseJSON parse respText

/-- Whether a JSON segment object has a non-empty `timeline` array. -/
def segTimelineNonempty (s : Json) : Bool :=
  match jsonField s "timeline" with
  | some (.arr (_ :: _)) => true
  | _ => false

/-- Whether two JSON segment objects are distinct route options (distinct
`name` strings, the discriminating attribute of a route option). -/
def segsDistinct (s₁ s₂ : Json) : Bool :=
  match jsonField s₁ "name", jsonField s₂ "name" with
  | some (.str a), some (.str b) => !(a == b)
  | _, _ => false

/-- Modelled from the spec: the output contract §4.2 claims for the routes
stage — a `routeSegments` array of exactly two distinct route options, each
with a non-empty timeline of waypoints.  Stated from the spec's words, to be
compared with what `generateTrailRoutes` actually accepts. -/
def routesSpecConformant (j : Json) : Bool :=
  match jsonField j "routeSegments" with
  | some (.arr [s₁, s₂]) =>
    segsDistinct s₁ s₂ && segTimelineNonempty s₁ && segTimelineNonempty s₂
  | _ => false

/-- A concrete fragment of `JSON.parse`, correct at the single input it
accepts: the text `{}` parses to the empty JSON object. -/
def parseEmptyObj : String → Option Json :=
  fun s => if s == "\x7b\x7d" then some (Json.obj []) else none

/-! ## Concrete sample data

`wugongSeed` is the mock community record the app seeds into the store on
mount (part_000 lines 26–64); the other samples are stage payloads used to
evaluate the theorems on closed inputs. -/

/-- First seeded route segment (lines 39–46): note its empty timeline. -/
def wugongSeg1 : RouteSegment :=
  { name := "正穿经典线 (沈子村-金顶)"
    distance := "18km"
    time := "8-10h"
    description := "最经典的登山路线，路况成熟。"
    landmarks := "沈子村 -> 九龙山 -> 铁蹄峰 -> 金顶"
    timeline := some [] }

/-- Second seeded route segment (lines 47–54). -/
def wugongSeg2 : RouteSegment :=
  { name := "反穿精华线"
    distance := "22km"
    time := "2天1夜"
    description := "驴友最爱路线。"
    landmarks := "龙山村 -> 发云界 -> 绝望坡 -> 金顶"
    timeline := some [{ name := "龙山村", description := some "起点" }] }

/-- The seeded 武功山 community record (lines 28–63). -/
def wugongSeed : TrailData :=
  { name := "武功山"
    location := "中国江西省萍乡市"
    highlight := "云中草原，户外天堂，华东朝圣之路。"
    difficulty := 3
    duration := "2-3天"
    length := "25-30公里"
    elevationGain := "1600米"
    description := some "武功山以其广阔的高山草甸和壮观的云海日出而闻名。"
    story := some "当你站在金顶之上，脚下是翻涌的云海，头顶是璀璨的星空..."
    routeSegments := some [wugongSeg1, wugongSeg2]
    gear := some { essential := [{ item := "登山杖", reason := some "保护膝盖" }]
                   recommended := [{ item := "防晒霜", reason := some "紫外线强" }] }
    safetyTips := some ["雨天路滑建议避开。"]
    bestSeason := some "5月-10月"
    communityTips := some ["建议反穿！"] }

/-- A store holding just the seeded record under its seeded key (line 26). -/
def seedStore : Store :=
  [("ecotrek_community_武功山", EntryVal.good wugongSeed)]

/-- A parsed record whose `name` is falsy (skipped by the scan's safety
check). -/
def noNameTrail : TrailData :=
  { name := "", location := "无", highlight := "无", difficulty := 1
    duration := "1天", length := "1公里", elevationGain := "0米" }

/-- A store with a malformed entry and an empty-name entry in front of the
seeded record. -/
def badStore : Store :=
  [("ecotrek_community_broken", EntryVal.bad),
   ("ecotrek_community_noname", EntryVal.good noNameTrail),
   ("ecotrek_community_武功山", EntryVal.good wugongSeed)]

/-- A sample successful basic-stage payload. -/
def sampleBasic : BasicFields :=
  { name := "四姑娘山"
    location := "中国四川省阿坝州"
    centerCoordinates := some { latitude := 31, longitude := 102 }
    highlight := "蜀山皇后。"
    difficulty := 4
    duration := "2天"
    length := "20公里"
    elevationGain := "1200米" }

/-- A sample successful misc-stage payload. -/
def sampleMisc : MiscFields :=
  { description := "高原雪山徒步。"
    story := "雪山之下的徒步体验。"
    gear := { essential := [{ item := "冲锋衣", reason := some "防风保暖" }]
              recommended := [] }
    safetyTips := ["注意高反。"]
    bestSeason := "6月-9月"
    communityTips := ["提前适应海拔。"] }

/-- A sample successful routes-stage payload. -/
def sampleRoutes : RoutesFields :=
  { routeSegments :=
      [{ name := "大峰线", distance := "10km", time := "6h"
         description := "入门线路。", landmarks := "日隆镇 -> 大峰"
         timeline := some [{ name := "大峰营地" }] },
       { name := "二峰线", distance := "12km", time := "8h"
         description := "进阶线路。", landmarks := "日隆镇 -> 二峰"
         timeline := some [{ name := "二峰营地" }] }] }

/-- The app state with an empty store. -/
def emptyState : AppState := { store := [] }

/-- The app state right after seeding. -/
def seedState : AppState := { store := seedStore }

/-- A later save of the 武功山 plan with updated community tips (same
name, different field values). -/
def wugongSeedV2 : TrailData :=
  { wugongSeed with communityTips := some ["建议反穿！", "金顶看日出要早起。"] }

/-! ## Characterization of the fuzzy scan -/

/-- The scan loop is the first-match search: it returns the record of the
first store entry (in enumeration order) accepted by `entryHit`. -/
theorem findLoop_eq_find? (nq : List Char) (l : Store) :
    findLoop nq l = (l.find? (entryHit nq)).bind entryRecord := by
  induction l with
  | nil => rfl
  | cons e rest ih =>
    obtain ⟨k, v⟩ := e
    cases hk : keyInNs k with
    | false => cases v <;> simp [findLoop, List.find?, entryHit, hk, ih]
    | true =>
      cases v with
      | bad => simp [findLoop, List.find?, entryHit, hk, ih]
      | good t =>
        cases hn : (t.name == "") with
        | true => simp [findLoop, List.find?, entryHit, hk, hn, ih]
        | false =>
          cases hm : entryMatches nq t <;>
            simp [findLoop, List.find?, entryHit, entryRecord, hk, hn, hm, ih]

/-- Removing the entries the scan skips (malformed or falsy-name) does not
change the scan's result. -/
theorem findLoop_filter_parses (nq : List Char) (l : Store) :
    findLoop nq (l.filter entryParses) = findLoop nq l := by
  induction l with
  | nil => rfl
  | cons e rest ih =>
    obtain ⟨k, v⟩ := e
    cases v with
    | bad => simp [List.filter, entryParses, findLoop, ih]
    | good t =>
      cases hn : (t.name == "") with
      | true => simp [List.filter, entryParses, hn, findLoop, ih]
      | false => simp [List.filter, entryParses, hn, findLoop, ih]

/-- Any record the scan returns comes from a well-formed entry of the store
under the namespace. -/
theorem findLoop_mem (nq : List Char) (l : Store) (t : TrailData)
    (h : findLoop nq l = some t) :
    ∃ k, (k, EntryVal.good t) ∈ l ∧ (t.name == "") = false ∧ keyInNs k = true := by
  induction l with
  | nil => simp [findLoop] at h
  | cons e rest ih =>
    obtain ⟨k, v⟩ := e
    cases hk : keyInNs k with
    | false =>
      simp only [findLoop, hk, Bool.false_eq_true, if_false] at h
      obtain ⟨k', hmem, hn, hns⟩ := ih h
      exact ⟨k', List.mem_cons_of_mem _ hmem, hn, hns⟩
    | true =>
      cases v with
      | bad =>
        simp only [findLoop, hk, if_true] at h
        obtain ⟨k', hmem, hn, hns⟩ := ih h
        exact ⟨k', List.mem_cons_of_mem _ hmem, hn, hns⟩
      | good u =>
        cases hn : (u.name == "") with
        | true =>
          simp only [findLoop, hk, hn, if_true] at h
          obtain ⟨k', hmem, hn', hns⟩ := ih h
          exact ⟨k', List.mem_cons_of_mem _ hmem, hn', hns⟩
        | false =>
          cases hm : entryMatches nq u with
          | false =>
            simp only [findLoop, hk, hn, hm, Bool.false_eq_true, if_true,
              if_false] at h
            obtain ⟨k', hmem, hn', hns⟩ := ih h
            exact ⟨k', List.mem_cons_of_mem _ hmem, hn', hns⟩
          | true =>
            simp only [findLoop, hk, hn, hm, Bool.false_eq_true, if_true,
              if_false, Option.some.injEq] at h
            subst h
            exact ⟨k, List.mem_cons_self _ _, hn, hk⟩

/-- C8 (confirmed): Fuzzy-scan fault tolerance — the fuzzy lookup skips any
entry under the namespace whose stored value is missing, fails to parse, or
lacks a name, and keeps scanning: its result is unchanged when those
entries are removed.  Moreover a malformed entry is never returned: any hit
is a parsed record with a truthy name stored under a namespaced key.  (The
scan is a total function of the store — the source's per-entry `try/catch`
is absorbed into `EntryVal.bad`, so no exception escapes.) -/
theorem fuzzy_scan_fault_tolerance (store : Store) (query : String) :
    findLocalTrail store query = findLocalTrail (store.filter entryParses) query
    ∧ ∀ t : TrailData, findLocalTrail store query = some t →
        ∃ k, (k, EntryVal.good t) ∈ store ∧ (t.name == "") = false
          ∧ keyInNs k = true :=
  ⟨(findLoop_filter_parses _ store).symm,
   fun t h => findLoop_mem _ store t h⟩

/-- C8 witness: on a concrete store whose first two namespaced entries are
a malformed value and an empty-name record, the scan skips both and returns
the later seeded record. -/
theorem fuzzy_scan_fault_tolerance_check :
    (findLocalTrail badStore "武功山" = findLocalTrail (badStore.filter entryParses) "武功山")
    ∧ ∃ k, (k, EntryVal.good wugongSeed) ∈ badStore
        ∧ (wugongSeed.name == "") = false ∧ keyInNs k = true :=
  ⟨(fuzzy_scan_fault_tolerance badStore "武功山").1,
   (fuzzy_scan_fault_tolerance badStore "武功山").2 wugongSeed (by decide)⟩

/-- If some entry of the store is accepted by `entryHit nq`, the scan hits:
it returns the record of the first accepted entry in enumeration order. -/
theorem findLoop_hit (nq : List Char) (l : Store) (e : String × EntryVal)
    (hmem : e ∈ l) (hhit : entryHit nq e = true) :
    ∃ c, findLoop nq l = some c
      ∧ (l.find? (entryHit nq)).bind entryRecord = some c := by
  have hsome : (l.find? (entryHit nq)).isSome :=
    List.find?_isSome.mpr ⟨e, hmem, hhit⟩
  obtain ⟨y, hy⟩ := Option.isSome_iff_exists.mp hsome
  have hpy := List.find?_some hy
  obtain ⟨ky, vy⟩ := y
  cases vy with
  | bad => simp [entryHit] at hpy
  | good c =>
    refine ⟨c, ?_, ?_⟩
    · rw [findLoop_eq_find?, hy]; rfl
    · rw [hy]; rfl

/-- On a cache hit, `handleSearch` short-circuits: show the cached record,
unlock, and return (lines 98–104). -/
theorem handleSearch_cacheHit (st : AppState) (query : String)
    (basicR : Except String BasicFields) (miscR : Except String MiscFields)
    (routesR : Except String RoutesFields) (ord : StageOrder) (c : TrailData)
    (h : findLocalTrail st.store query = some c) :
    handleSearch st query basicR miscR routesR ord =
      ([.setLoading true, .setCurrentTrail (some c), .setView .guide,
        .setLoading false],
       { st with currentTrail := some c, view := .guide, isLoading := false }) := by
  simp only [handleSearch, h]

/-- The cache-hit trace contains no content-provider call. -/
theorem cacheHitTrace_noCalls (c : TrailData) (ev : Event)
    (hev : ev ∈ [Event.setLoading true, Event.setCurrentTrail (some c),
      Event.setView .guide, Event.setLoading false]) :
    isProviderCall ev = false := by
  simp only [List.mem_cons, List.not_mem_nil, or_false] at hev
  rcases hev with h | h | h | h <;> subst h <;> rfl

/-- C3 (confirmed): Cache precedence — if the store holds a record (under
the community namespace, parseable, with a truthy name) whose lower-cased
name contains the normalized query or is contained in it, then
`handleSearch` returns the first such match of the store enumeration (the
`find?` characterization) as the cached result and performs none of the
three content-provider operations. -/
theorem cache_precedence (st : AppState) (query : String)
    (basicR : Except String BasicFields) (miscR : Except String MiscFields)
    (routesR : Except String RoutesFields) (ord : StageOrder)
    (k : String) (t : TrailData)
    (hmem : (k, EntryVal.good t) ∈ st.store) (hk : keyInNs k = true)
    (hn : (t.name == "") = false)
    (hm : entryMatches (jsTrim (jsToLower query)).data t = true) :
    ∃ c : TrailData,
      findLocalTrail st.store query = some c
      ∧ (st.store.find? (entryHit (jsTrim (jsToLower query)).data)).bind
          entryRecord = some c
      ∧ handleSearch st query basicR miscR routesR ord =
          ([.setLoading true, .setCurrentTrail (some c), .setView .guide,
            .setLoading false],
           { st with currentTrail := some c, view := .guide, isLoading := false })
      ∧ ∀ ev ∈ (handleSearch st query basicR miscR routesR ord).1,
          isProviderCall ev = false := by
  have hhit : entryHit (jsTrim (jsToLower query)).data (k, EntryVal.good t) = true := by
    simp [entryHit, hk, hn, hm]
  obtain ⟨c, hc1, hc2⟩ := findLoop_hit _ st.store _ hmem hhit
  have hfind : findLocalTrail st.store query = some c := hc1
  have heq := handleSearch_cacheHit st query basicR miscR routesR ord c hfind
  refine ⟨c, hfind, hc2, heq, ?_⟩
  rw [heq]
  exact cacheHitTrace_noCalls c

/-- C3 witness: E2E scenario A — the seeded store and the query `武功山`
short-circuit to the seeded record with zero provider calls. -/
theorem cache_precedence_check :
    ∃ c : TrailData,
      findLocalTrail seedState.store "武功山" = some c
      ∧ (seedState.store.find? (entryHit (jsTrim (jsToLower "武功山")).data)).bind
          entryRecord = some c
      ∧ handleSearch seedState "武功山" (.ok sampleBasic) (.ok sampleMisc)
          (.ok sampleRoutes) .miscFirst =
          ([.setLoading true, .setCurrentTrail (some c), .setView .guide,
            .setLoading false],
           { seedState with
             currentTrail := some c
             view := .guide
             isLoading := false })
      ∧ ∀ ev ∈ (handleSearch seedState "武功山" (.ok sampleBasic)
            (.ok sampleMisc) (.ok sampleRoutes) .miscFirst).1,
          isProviderCall ev = false :=
  cache_precedence seedState "武功山" (.ok sampleBasic) (.ok sampleMisc)
    (.ok sampleRoutes) .miscFirst "ecotrek_community_武功山" wugongSeed
    (by decide) (by decide) (by decide) (by decide)

/-! ## The whitespace-query edge case -/

/-- Lowering does not change whitespace characters. -/
theorem toLower_whitespace (c : Char) (h : c.isWhitespace = true) :
    c.toLower = c := by
  simp only [Char.isWhitespace, Bool.or_eq_true, decide_eq_true_eq] at h
  rcases h with ((h | h) | h) | h <;> subst h <;> decide

/-- A query of nothing but whitespace normalizes to the empty string. -/
theorem normalized_nil (q : String) (hq : ∀ c ∈ q.data, c.isWhitespace = true) :
    (jsTrim (jsToLower q)).data = [] := by
  have hlow : ∀ c ∈ q.data.map Char.toLower, c.isWhitespace = true := by
    intro c hc
    obtain ⟨d, hd, rfl⟩ := List.mem_map.mp hc
    rw [toLower_whitespace d (hq d hd)]
    exact hq d hd
  have hdrop : (q.data.map Char.toLower).dropWhile Char.isWhitespace = [] :=
    List.dropWhile_eq_nil_iff.mpr hlow
  simp [jsTrim, jsToLower, hdrop]

/-- The empty pattern occurs in every string. -/
theorem occursIn_nil (l : List Char) : occursIn [] l = true := by
  cases l <;> rfl

/-- With an empty normalized query every parsed, truthy-named record under
the namespace is a hit. -/
theorem entryHit_nil (e : String × EntryVal) :
    entryHit [] e = (keyInNs e.1 && entryParses e) := by
  obtain ⟨k, v⟩ := e
  cases v with
  | bad => rfl
  | good t =>
    simp [entryHit, entryParses, entryMatches, occursIn_nil]

/-- C10 (confirmed): Empty-query edge case — for a query made only of
whitespace, the normalized query is the empty string, which matches every
stored record, so once any well-formed record sits under the namespace the
fuzzy lookup returns the first such record in enumeration order and
`handleSearch` performs no content-provider operation. -/
theorem empty_query_first_record (st : AppState) (query : String)
    (basicR : Except String BasicFields) (miscR : Except String MiscFields)
    (routesR : Except String RoutesFields) (ord : StageOrder)
    (hq : ∀ c ∈ query.data, c.isWhitespace = true)
    (k : String) (t : TrailData)
    (hmem : (k, EntryVal.good t) ∈ st.store) (hk : keyInNs k = true)
    (hn : (t.name == "") = false) :
    jsTrim (jsToLower query) = ""
    ∧ ∃ c : TrailData,
        findLocalTrail st.store query = some c
        ∧ (st.store.find? (fun e => keyInNs e.1 && entryParses e)).bind
            entryRecord = some c
        ∧ handleSearch st query basicR miscR routesR ord =
            ([.setLoading true, .setCurrentTrail (some c), .setView .guide,
              .setLoading false],
             { st with
               currentTrail := some c
               view := .guide
               isLoading := false })
        ∧ ∀ ev ∈ (handleSearch st query basicR miscR routesR ord).1,
            isProviderCall ev = false := by
  have hnil : (jsTrim (jsToLower query)).data = [] := normalized_nil query hq
  have hstr : jsTrim (jsToLower query) = "" := by
    have := congrArg String.mk hnil
    simpa [jsTrim] using this
  have hhit : entryHit (jsTrim (jsToLower query)).data (k, EntryVal.good t) = true := by
    rw [hnil, entryHit_nil]
    simp [entryParses, hk, hn]
  obtain ⟨c, hc1, hc2⟩ := findLoop_hit _ st.store _ hmem hhit
  have hfind : findLocalTrail st.store query = some c := hc1
  have heq := handleSearch_cacheHit st query basicR miscR routesR ord c hfind
  have hc2n : (st.store.find? (fun e => keyInNs e.1 && entryParses e)).bind
      entryRecord = some c := by
    have hfun : entryHit (jsTrim (jsToLower query)).data =
        fun e => keyInNs e.1 && entryParses e := by
      funext e
      rw [hnil, entryHit_nil]
    rw [← hfun]
    exact hc2
  refine ⟨hstr, c, hfind, hc2n, heq, ?_⟩
  rw [heq]
  exact cacheHitTrace_noCalls c

/-- C10 witness: a two-space query against the seeded store returns the
seeded record with zero provider calls. -/
theorem empty_query_first_record_check :
    jsTrim (jsToLower "  ") = ""
    ∧ ∃ c : TrailData,
        findLocalTrail seedState.store "  " = some c
        ∧ (seedState.store.find? (fun e => keyInNs e.1 && entryParses e)).bind
            entryRecord = some c
        ∧ handleSearch seedState "  " (.ok sampleBasic) (.ok sampleMisc)
            (.ok sampleRoutes) .routesFirst =
            ([.setLoading true, .setCurrentTrail (some c), .setView .guide,
              .setLoading false],
             { seedState with
               currentTrail := some c
               view := .guide
               isLoading := false })
        ∧ ∀ ev ∈ (handleSearch seedState "  " (.ok sampleBasic)
              (.ok sampleMisc) (.ok sampleRoutes) .routesFirst).1,
            isProviderCall ev = false :=
  empty_query_first_record seedState "  " (.ok sampleBasic) (.ok sampleMisc)
    (.ok sampleRoutes) .routesFirst (by decide) "ecotrek_community_武功山"
    wugongSeed (by decide) (by decide) (by decide)

/-! ## Reduction lemmas for the cache-miss paths of `handleSearch` -/

/-- On a cache miss with a failed basic fetch, `handleSearch` is the catch
block: alert, stop loading, nothing else (lines 169–172). -/
theorem handleSearch_basicFail (st : AppState) (query msg : String)
    (miscR : Except String MiscFields) (routesR : Except String RoutesFields)
    (ord : StageOrder) (h : findLocalTrail st.store query = none) :
    handleSearch st query (.error msg) miscR routesR ord =
      ([.setLoading true, .callBasic query, .alert couldNotFindMsg,
        .setLoading false],
       { st with isLoading := false }) := by
  simp only [handleSearch, h]

/-- On a cache miss with a successful basic fetch, the run is: cache check,
basic call, UI unlock with the partial record, both stage launches, both
settlements (in either order), then the single store write of the final
merged record. -/
theorem handleSearch_miss (st : AppState) (query : String) (b : BasicFields)
    (miscR : Except String MiscFields) (routesR : Except String RoutesFields)
    (ord : StageOrder) (h : findLocalTrail st.store query = none) :
    handleSearch st query (.ok b) miscR routesR ord =
      ([Event.setLoading true, Event.callBasic query,
        Event.setCurrentTrail (some (mkBasicTrail b)), Event.setView .guide,
        Event.setLoading false, Event.callMisc query b, Event.callRoutes query b]
        ++ (runStages (basicReadyState st b) miscR routesR ord).1
        ++ [Event.storeSet
              (communityNs ++ (finalMergedTrail b miscR routesR).name)
              (finalMergedTrail b miscR routesR)],
       { (runStages (basicReadyState st b) miscR routesR ord).2 with
         store := storeSetItem
           (runStages (basicReadyState st b) miscR routesR ord).2.store
           (communityNs ++ (finalMergedTrail b miscR routesR).name)
           (finalMergedTrail b miscR routesR) }) := by
  simp only [handleSearch, h, basicReadyState]

/-- The final merged record keeps the basic-stage name: neither stage's
merge touches `name`. -/
theorem finalMergedTrail_name (b : BasicFields)
    (miscR : Except String MiscFields) (routesR : Except String RoutesFields) :
    (finalMergedTrail b miscR routesR).name = b.name := by
  cases miscR <;> cases routesR <;> rfl

/-- Stage settlement emits no store write. -/
theorem storeWrites_runStages (st : AppState)
    (miscR : Except String MiscFields) (routesR : Except String RoutesFields)
    (ord : StageOrder) :
    storeWrites (runStages st miscR routesR ord).1 = [] := by
  cases ord <;> cases miscR <;> cases routesR <;> rfl

/-- Stage settlement emits no alert. -/
theorem alert_not_mem_runStages (st : AppState)
    (miscR : Except String MiscFields) (routesR : Except String RoutesFields)
    (ord : StageOrder) (s : String) :
    Event.alert s ∉ (runStages st miscR routesR ord).1 := by
  cases ord <;> cases miscR <;> cases routesR <;>
    simp [runStages, settleMisc, settleRoutes]

/-- The misc stage's settlement marker appears in every stage run. -/
theorem settled_misc_mem_runStages (st : AppState)
    (miscR : Except String MiscFields) (routesR : Except String RoutesFields)
    (ord : StageOrder) :
    Event.settled .misc (match miscR with | .ok _ => true | .error _ => false)
      ∈ (runStages st miscR routesR ord).1 := by
  cases ord <;> cases miscR <;> cases routesR <;>
    simp [runStages, settleMisc, settleRoutes]

/-- The routes stage's settlement marker appears in every stage run. -/
theorem settled_routes_mem_runStages (st : AppState)
    (miscR : Except String MiscFields) (routesR : Except String RoutesFields)
    (ord : StageOrder) :
    Event.settled .routes
        (match routesR with | .ok _ => true | .error _ => false)
      ∈ (runStages st miscR routesR ord).1 := by
  cases ord <;> cases miscR <;> cases routesR <;>
    simp [runStages, settleMisc, settleRoutes]

/-- The whole cache-miss trace carries exactly one store write: the final
merged record under the basic-stage key. -/
theorem storeWrites_miss (st : AppState) (query : String) (b : BasicFields)
    (miscR : Except String MiscFields) (routesR : Except String RoutesFields)
    (ord : StageOrder) (h : findLocalTrail st.store query = none) :
    storeWrites (handleSearch st query (.ok b) miscR routesR ord).1
      = [Event.storeSet (communityNs ++ b.name)
          (finalMergedTrail b miscR routesR)] := by
  rw [handleSearch_miss st query b miscR routesR ord h]
  simp only [storeWrites, List.filter_append, finalMergedTrail_name]
  rw [show (List.filter _ (runStages (basicReadyState st b) miscR routesR ord).1)
      = storeWrites (runStages (basicReadyState st b) miscR routesR ord).1 from rfl]
  rw [storeWrites_runStages]
  rfl

/-- C1 (confirmed): Merge non-destructiveness — for any pair of successful
misc/routes payloads and either settlement order, each stage's success
callback merges into the current shared record, so the record held after
both settlements carries every field contributed by the first stage to
resolve as well as the second's (and the basic snapshot's fields). -/
theorem merge_nondestructive (st : AppState) (query : String)
    (b : BasicFields) (m : MiscFields) (r : RoutesFields) (ord : StageOrder)
    (hmiss : findLocalTrail st.store query = none) :
    ∃ fin : TrailData,
      (handleSearch st query (.ok b) (.ok m) (.ok r) ord).2.currentTrail = some fin
      ∧ fin.description = some m.description
      ∧ fin.story = some m.story
      ∧ fin.gear = some m.gear
      ∧ fin.safetyTips = some m.safetyTips
      ∧ fin.bestSeason = some m.bestSeason
      ∧ fin.communityTips = some m.communityTips
      ∧ fin.routeSegments = some r.routeSegments
      ∧ fin.name = b.name
      ∧ fin.location = b.location
      ∧ fin.highlight = b.highlight
      ∧ fin.difficulty = b.difficulty
      ∧ fin.duration = b.duration
      ∧ fin.length = b.length
      ∧ fin.elevationGain = b.elevationGain
      ∧ fin.centerCoordinates = b.centerCoordinates := by
  rw [handleSearch_miss st query b (.ok m) (.ok r) ord hmiss]
  cases ord <;>
    exact ⟨_, rfl, rfl, rfl, rfl, rfl, rfl, rfl, rfl, rfl, rfl, rfl, rfl,
      rfl, rfl, rfl, rfl⟩

/-- C1 witness: on the empty store with both stages succeeding and routes
settling first, the shared record ends with both field sets present. -/
theorem merge_nondestructive_check :
    ∃ fin : TrailData,
      (handleSearch emptyState "四姑娘山" (.ok sampleBasic) (.ok sampleMisc)
          (.ok sampleRoutes) .routesFirst).2.currentTrail = some fin
      ∧ fin.description = some sampleMisc.description
      ∧ fin.story = some sampleMisc.story
      ∧ fin.gear = some sampleMisc.gear
      ∧ fin.safetyTips = some sampleMisc.safetyTips
      ∧ fin.bestSeason = some sampleMisc.bestSeason
      ∧ fin.communityTips = some sampleMisc.communityTips
      ∧ fin.routeSegments = some sampleRoutes.routeSegments
      ∧ fin.name = sampleBasic.name
      ∧ fin.location = sampleBasic.location
      ∧ fin.highlight = sampleBasic.highlight
      ∧ fin.difficulty = sampleBasic.difficulty
      ∧ fin.duration = sampleBasic.duration
      ∧ fin.length = sampleBasic.length
      ∧ fin.elevationGain = sampleBasic.elevationGain
      ∧ fin.centerCoordinates = sampleBasic.centerCoordinates :=
  merge_nondestructive emptyState "四姑娘山" sampleBasic sampleMisc
    sampleRoutes .routesFirst rfl

/-- C2 (confirmed): Single persistence after an all-settled join — on a
cache miss with a successful basic fetch, whatever the two background
stages' outcomes and their order, the trace carries exactly one store
write, its key is the namespace plus the basic-stage name, it is the final
event, and both stages' settlement markers precede it; the written value is
the final merged record, never an intermediate partial state. -/
theorem single_persistence (st : AppState) (query : String) (b : BasicFields)
    (miscR : Except String MiscFields) (routesR : Except String RoutesFields)
    (ord : StageOrder) (hmiss : findLocalTrail st.store query = none) :
    ∃ pre : List Event, ∃ fin : TrailData,
      (handleSearch st query (.ok b) miscR routesR ord).1
        = pre ++ [Event.storeSet (communityNs ++ b.name) fin]
      ∧ storeWrites pre = []
      ∧ (∃ x, Event.settled .misc x ∈ pre)
      ∧ (∃ y, Event.settled .routes y ∈ pre)
      ∧ storeWrites (handleSearch st query (.ok b) miscR routesR ord).1
          = [Event.storeSet (communityNs ++ b.name) fin]
      ∧ fin = finalMergedTrail b miscR routesR := by
  refine ⟨[Event.setLoading true, Event.callBasic query,
      Event.setCurrentTrail (some (mkBasicTrail b)), Event.setView .guide,
      Event.setLoading false, Event.callMisc query b, Event.callRoutes query b]
      ++ (runStages (basicReadyState st b) miscR routesR ord).1,
    finalMergedTrail b miscR routesR, ?_, ?_, ?_, ?_, ?_, rfl⟩
  · rw [handleSearch_miss st query b miscR routesR ord hmiss,
      finalMergedTrail_name]
  · simp only [storeWrites, List.filter_append]
    rw [show (List.filter _ (runStages (basicReadyState st b) miscR routesR ord).1)
        = storeWrites (runStages (basicReadyState st b) miscR routesR ord).1 from rfl]
    rw [storeWrites_runStages]
    rfl
  · exact ⟨_, List.mem_append_right _ (settled_misc_mem_runStages _ _ _ _)⟩
  · exact ⟨_, List.mem_append_right _ (settled_routes_mem_runStages _ _ _ _)⟩
  · exact storeWrites_miss st query b miscR routesR ord hmiss

/-- C2 witness: concrete run (misc succeeds, routes fails, misc settles
first) ending in the single store write of the merged record. -/
theorem single_persistence_check :
    ∃ pre : List Event, ∃ fin : TrailData,
      (handleSearch emptyState "四姑娘山" (.ok sampleBasic) (.ok sampleMisc)
          (.error "网络错误") .miscFirst).1
        = pre ++ [Event.storeSet (communityNs ++ sampleBasic.name) fin]
      ∧ storeWrites pre = []
      ∧ (∃ x, Event.settled .misc x ∈ pre)
      ∧ (∃ y, Event.settled .routes y ∈ pre)
      ∧ storeWrites (handleSearch emptyState "四姑娘山" (.ok sampleBasic)
            (.ok sampleMisc) (.error "网络错误") .miscFirst).1
          = [Event.storeSet (communityNs ++ sampleBasic.name) fin]
      ∧ fin = finalMergedTrail sampleBasic (.ok sampleMisc) (.error "网络错误") :=
  single_persistence emptyState "四姑娘山" sampleBasic (.ok sampleMisc)
    (.error "网络错误") .miscFirst rfl

/-- C4 (confirmed): Partial visibility at UI unlock — on a cache miss with
a successful basic fetch, the record handed to the caller at BASIC_READY
(the third event of every such trace) carries exactly the basic fields
(with `centerCoordinates` passed through) and has every misc field and
`routeSegments` absent. -/
theorem basic_ready_partial_visibility (st : AppState) (query : String)
    (b : BasicFields) (miscR : Except String MiscFields)
    (routesR : Except String RoutesFields) (ord : StageOrder)
    (hmiss : findLocalTrail st.store query = none) :
    ∃ rest : List Event,
      (handleSearch st query (.ok b) miscR routesR ord).1
        = [Event.setLoading true, Event.callBasic query,
           Event.setCurrentTrail (some (mkBasicTrail b)), Event.setView .guide,
           Event.setLoading false] ++ rest
      ∧ (mkBasicTrail b).name = b.name
      ∧ (mkBasicTrail b).location = b.location
      ∧ (mkBasicTrail b).highlight = b.highlight
      ∧ (mkBasicTrail b).difficulty = b.difficulty
      ∧ (mkBasicTrail b).duration = b.duration
      ∧ (mkBasicTrail b).length = b.length
      ∧ (mkBasicTrail b).elevationGain = b.elevationGain
      ∧ (mkBasicTrail b).centerCoordinates = b.centerCoordinates
      ∧ (mkBasicTrail b).description = none
      ∧ (mkBasicTrail b).story = none
      ∧ (mkBasicTrail b).gear = none
      ∧ (mkBasicTrail b).safetyTips = none
      ∧ (mkBasicTrail b).bestSeason = none
      ∧ (mkBasicTrail b).communityTips = none
      ∧ (mkBasicTrail b).routeSegments = none := by
  rw [handleSearch_miss st query b miscR routesR ord hmiss]
  exact ⟨Event.callMisc query b :: Event.callRoutes query b ::
      ((runStages (basicReadyState st b) miscR routesR ord).1
        ++ [Event.storeSet
              (communityNs ++ (finalMergedTrail b miscR routesR).name)
              (finalMergedTrail b miscR routesR)]),
    rfl, rfl, rfl, rfl, rfl, rfl, rfl, rfl, rfl, rfl, rfl, rfl, rfl, rfl,
    rfl, rfl⟩

/-- C4 witness: E2E scenario B shape — a miss on the empty store unlocks
with exactly the basic fields populated. -/
theorem basic_ready_partial_visibility_check :
    ∃ rest : List Event,
      (handleSearch emptyState "四姑娘山" (.ok sampleBasic) (.ok sampleMisc)
          (.ok sampleRoutes) .miscFirst).1
        = [Event.setLoading true, Event.callBasic "四姑娘山",
           Event.setCurrentTrail (some (mkBasicTrail sampleBasic)),
           Event.setView .guide, Event.setLoading false] ++ rest
      ∧ (mkBasicTrail sampleBasic).name = sampleBasic.name
      ∧ (mkBasicTrail sampleBasic).location = sampleBasic.location
      ∧ (mkBasicTrail sampleBasic).highlight = sampleBasic.highlight
      ∧ (mkBasicTrail sampleBasic).difficulty = sampleBasic.difficulty
      ∧ (mkBasicTrail sampleBasic).duration = sampleBasic.duration
      ∧ (mkBasicTrail sampleBasic).length = sampleBasic.length
      ∧ (mkBasicTrail sampleBasic).elevationGain = sampleBasic.elevationGain
      ∧ (mkBasicTrail sampleBasic).centerCoordinates = sampleBasic.centerCoordinates
      ∧ (mkBasicTrail sampleBasic).description = none
      ∧ (mkBasicTrail sampleBasic).story = none
      ∧ (mkBasicTrail sampleBasic).gear = none
      ∧ (mkBasicTrail sampleBasic).safetyTips = none
      ∧ (mkBasicTrail sampleBasic).bestSeason = none
      ∧ (mkBasicTrail sampleBasic).communityTips = none
      ∧ (mkBasicTrail sampleBasic).routeSegments = none :=
  basic_ready_partial_visibility emptyState "四姑娘山" sampleBasic
    (.ok sampleMisc) (.ok sampleRoutes) .miscFirst rfl

/-- C5 (confirmed): Basic-stage failure is terminal and atomic — on a cache
miss, a failed basic fetch produces exactly the catch-block trace (alert,
loading off): no partial record is shown, nothing is written, the store is
untouched; and with a successful basic fetch no combination of background
stage failures raises the alert — the run always ends in the single
persistence, so the basic stage is the only one whose failure aborts the
request. -/
theorem basic_failure_terminal (st : AppState) (query msg : String)
    (miscR : Except String MiscFields) (routesR : Except String RoutesFields)
    (ord : StageOrder) (hmiss : findLocalTrail st.store query = none) :
    handleSearch st query (.error msg) miscR routesR ord =
      ([.setLoading true, .callBasic query, .alert couldNotFindMsg,
        .setLoading false],
       { st with isLoading := false })
    ∧ (∀ k v, Event.storeSet k v ∉ (handleSearch st query (.error msg) miscR routesR ord).1)
    ∧ (∀ t, Event.setCurrentTrail t ∉ (handleSearch st query (.error msg) miscR routesR ord).1)
    ∧ (handleSearch st query (.error msg) miscR routesR ord).2.store = st.store
    ∧ (∀ b : BasicFields,
        (∀ s, Event.alert s ∉ (handleSearch st query (.ok b) miscR routesR ord).1)
        ∧ storeWrites (handleSearch st query (.ok b) miscR routesR ord).1
            = [Event.storeSet (communityNs ++ b.name)
                (finalMergedTrail b miscR routesR)]) := by
  have hfail := handleSearch_basicFail st query msg miscR routesR ord hmiss
  refine ⟨hfail, ?_, ?_, ?_, ?_⟩
  · intro k v
    rw [hfail]
    simp
  · intro t
    rw [hfail]
    simp
  · rw [hfail]
  · intro b
    refine ⟨?_, storeWrites_miss st query b miscR routesR ord hmiss⟩
    intro s hmem
    rw [handleSearch_miss st query b miscR routesR ord hmiss] at hmem
    rcases List.mem_append.mp hmem with h | h
    · rcases List.mem_append.mp h with h2 | h2
      · simp at h2
      · exact alert_not_mem_runStages _ _ _ _ s h2
    · simp at h

/-- C5 witness: a failed basic fetch on the empty store yields exactly the
alert trace; a successful one (same stage outcomes) never alerts and
persists once. -/
theorem basic_failure_terminal_check :
    handleSearch emptyState "幽灵山" (.error "Invalid JSON response from AI")
        (.ok sampleMisc) (.ok sampleRoutes) .miscFirst =
      ([.setLoading true, .callBasic "幽灵山", .alert couldNotFindMsg,
        .setLoading false],
       { emptyState with isLoading := false })
    ∧ (∀ k v, Event.storeSet k v ∉ (handleSearch emptyState "幽灵山"
        (.error "Invalid JSON response from AI") (.ok sampleMisc)
        (.ok sampleRoutes) .miscFirst).1)
    ∧ (∀ t, Event.setCurrentTrail t ∉ (handleSearch emptyState "幽灵山"
        (.error "Invalid JSON response from AI") (.ok sampleMisc)
        (.ok sampleRoutes) .miscFirst).1)
    ∧ (handleSearch emptyState "幽灵山" (.error "Invalid JSON response from AI")
        (.ok sampleMisc) (.ok sampleRoutes) .miscFirst).2.store = emptyState.store
    ∧ (∀ b : BasicFields,
        (∀ s, Event.alert s ∉ (handleSearch emptyState "幽灵山" (.ok b)
            (.ok sampleMisc) (.ok sampleRoutes) .miscFirst).1)
        ∧ storeWrites (handleSearch emptyState "幽灵山" (.ok b)
              (.ok sampleMisc) (.ok sampleRoutes) .miscFirst).1
            = [Event.storeSet (communityNs ++ b.name)
                (finalMergedTrail b (.ok sampleMisc) (.ok sampleRoutes))]) :=
  basic_failure_terminal emptyState "幽灵山" "Invalid JSON response from AI"
    (.ok sampleMisc) (.ok sampleRoutes) .miscFirst rfl

/-- C6 (confirmed): Graceful routes-stage degradation — when the routes
provider call fails, its failure is caught by the stage's own handler (the
run still reaches the final store write, its last event, and raises no
alert), and the persisted record carries the basic and misc fields with
`routeSegments` absent. -/
theorem routes_degradation (st : AppState) (query : String) (b : BasicFields)
    (m : MiscFields) (msg : String) (ord : StageOrder)
    (hmiss : findLocalTrail st.store query = none) :
    (∀ s, Event.alert s ∉ (handleSearch st query (.ok b) (.ok m) (.error msg) ord).1)
    ∧ storeWrites (handleSearch st query (.ok b) (.ok m) (.error msg) ord).1
        = [Event.storeSet (communityNs ++ b.name) (applyMisc (mkBasicTrail b) m)]
    ∧ (applyMisc (mkBasicTrail b) m).routeSegments = none
    ∧ (applyMisc (mkBasicTrail b) m).description = some m.description
    ∧ (applyMisc (mkBasicTrail b) m).story = some m.story
    ∧ (applyMisc (mkBasicTrail b) m).gear = some m.gear
    ∧ (applyMisc (mkBasicTrail b) m).safetyTips = some m.safetyTips
    ∧ (applyMisc (mkBasicTrail b) m).bestSeason = some m.bestSeason
    ∧ (applyMisc (mkBasicTrail b) m).communityTips = some m.communityTips
    ∧ (applyMisc (mkBasicTrail b) m).name = b.name
    ∧ (applyMisc (mkBasicTrail b) m).location = b.location
    ∧ (applyMisc (mkBasicTrail b) m).highlight = b.highlight
    ∧ (applyMisc (mkBasicTrail b) m).difficulty = b.difficulty
    ∧ (applyMisc (mkBasicTrail b) m).duration = b.duration
    ∧ (applyMisc (mkBasicTrail b) m).length = b.length
    ∧ (applyMisc (mkBasicTrail b) m).elevationGain = b.elevationGain := by
  refine ⟨?_, storeWrites_miss st query b (.ok m) (.error msg) ord hmiss,
    rfl, rfl, rfl, rfl, rfl, rfl, rfl, rfl, rfl, rfl, rfl, rfl, rfl, rfl⟩
  intro s hmem
  rw [handleSearch_miss st query b (.ok m) (.error msg) ord hmiss] at hmem
  rcases List.mem_append.mp hmem with h | h
  · rcases List.mem_append.mp h with h2 | h2
    · simp at h2
    · exact alert_not_mem_runStages _ _ _ _ s h2
  · simp at h

/-- C6 witness: E2E scenario D — routes call throws, run persists basic +
misc with `routeSegments` absent and never alerts. -/
theorem routes_degradation_check :
    (∀ s, Event.alert s ∉ (handleSearch emptyState "四姑娘山" (.ok sampleBasic)
        (.ok sampleMisc) (.error "网络错误") .routesFirst).1)
    ∧ storeWrites (handleSearch emptyState "四姑娘山" (.ok sampleBasic)
          (.ok sampleMisc) (.error "网络错误") .routesFirst).1
        = [Event.storeSet (communityNs ++ sampleBasic.name)
            (applyMisc (mkBasicTrail sampleBasic) sampleMisc)]
    ∧ (applyMisc (mkBasicTrail sampleBasic) sampleMisc).routeSegments = none
    ∧ (applyMisc (mkBasicTrail sampleBasic) sampleMisc).description
        = some sampleMisc.description
    ∧ (applyMisc (mkBasicTrail sampleBasic) sampleMisc).story
        = some sampleMisc.story
    ∧ (applyMisc (mkBasicTrail sampleBasic) sampleMisc).gear
        = some sampleMisc.gear
    ∧ (applyMisc (mkBasicTrail sampleBasic) sampleMisc).safetyTips
        = some sampleMisc.safetyTips
    ∧ (applyMisc (mkBasicTrail sampleBasic) sampleMisc).bestSeason
        = some sampleMisc.bestSeason
    ∧ (applyMisc (mkBasicTrail sampleBasic) sampleMisc).communityTips
        = some sampleMisc.communityTips
    ∧ (applyMisc (mkBasicTrail sampleBasic) sampleMisc).name = sampleBasic.name
    ∧ (applyMisc (mkBasicTrail sampleBasic) sampleMisc).location
        = sampleBasic.location
    ∧ (applyMisc (mkBasicTrail sampleBasic) sampleMisc).highlight
        = sampleBasic.highlight
    ∧ (applyMisc (mkBasicTrail sampleBasic) sampleMisc).difficulty
        = sampleBasic.difficulty
    ∧ (applyMisc (mkBasicTrail sampleBasic) sampleMisc).duration
        = sampleBasic.duration
    ∧ (applyMisc (mkBasicTrail sampleBasic) sampleMisc).length
        = sampleBasic.length
    ∧ (applyMisc (mkBasicTrail sampleBasic) sampleMisc).elevationGain
        = sampleBasic.elevationGain :=
  routes_degradation emptyState "四姑娘山" sampleBasic sampleMisc "网络错误"
    .routesFirst rfl

/-! ## The saved-plans ledger -/

/-- Saving a record always leaves an entry equal to it in the ledger:
either it is appended, or the found same-named entry is replaced by it. -/
theorem save_self_mem (l : List TrailData) (trail : TrailData) :
    trail ∈ handleSaveTrail l trail := by
  cases hfind : l.find? (fun t => t.name == trail.name) with
  | none => simp [handleSaveTrail, hfind]
  | some y =>
    have hmem := List.mem_of_find?_eq_some hfind
    have hpy := List.find?_some hfind
    simp only [handleSaveTrail, hfind, Option.isNone_some, Bool.false_eq_true,
      if_false]
    exact List.mem_map.mpr ⟨y, hmem, by simp [hpy]⟩

/-- C9 (confirmed): Ledger upsert idempotence and placement — saving a
record whose name is absent appends it at the end; saving one whose name is
present replaces the matching entries in place (the `map`), preserving
length; and after any save, re-saving a same-named record keeps the length
and leaves the most recently saved values as the sole entry of that name. -/
theorem ledger_upsert (l : List TrailData) (trail : TrailData) :
    ((∀ x ∈ l, x.name ≠ trail.name) →
      handleSaveTrail l trail = l ++ [trail])
    ∧ ((∃ x ∈ l, x.name = trail.name) →
      handleSaveTrail l trail
          = l.map (fun t => if t.name == trail.name then trail else t)
        ∧ (handleSaveTrail l trail).length = l.length)
    ∧ (∀ t₂ : TrailData, t₂.name = trail.name →
        (handleSaveTrail (handleSaveTrail l trail) t₂).length
          = (handleSaveTrail l trail).length
        ∧ t₂ ∈ handleSaveTrail (handleSaveTrail l trail) t₂
        ∧ ∀ x ∈ handleSaveTrail (handleSaveTrail l trail) t₂,
            x.name = t₂.name → x = t₂) := by
  refine ⟨?_, ?_, ?_⟩
  · intro h
    have hnone : l.find? (fun t => t.name == trail.name) = none := by
      rw [List.find?_eq_none]
      intro x hx
      simp only [beq_iff_eq]
      exact h x hx
    simp [handleSaveTrail, hnone]
  · rintro ⟨x, hx, hname⟩
    have hsome : (l.find? (fun t => t.name == trail.name)).isSome :=
      List.find?_isSome.mpr ⟨x, hx, by simp [beq_iff_eq, hname]⟩
    obtain ⟨y, hy⟩ := Option.isSome_iff_exists.mp hsome
    constructor
    · simp [handleSaveTrail, hy]
    · simp [handleSaveTrail, hy]
  · intro t₂ ht₂
    have hmem : trail ∈ handleSaveTrail l trail := save_self_mem l trail
    have hsome :
        ((handleSaveTrail l trail).find? (fun t => t.name == t₂.name)).isSome :=
      List.find?_isSome.mpr ⟨trail, hmem, by simp [beq_iff_eq, ht₂]⟩
    obtain ⟨y, hy⟩ := Option.isSome_iff_exists.mp hsome
    generalize hL : handleSaveTrail l trail = L at hy hmem ⊢
    refine ⟨?_, ?_, ?_⟩
    · simp only [handleSaveTrail, hy, Option.isNone_some, Bool.false_eq_true,
        if_false, List.length_map]
    · simp only [handleSaveTrail, hy, Option.isNone_some, Bool.false_eq_true,
        if_false]
      exact List.mem_map.mpr ⟨trail, hmem, by simp [beq_iff_eq, ht₂]⟩
    · intro x hx hxname
      have hx' : x ∈ L.map (fun t => if t.name == t₂.name then t₂ else t) := by
        simp only [handleSaveTrail, hy, Option.isNone_some, Bool.false_eq_true,
          if_false] at hx
        exact hx
      obtain ⟨z, hz, hzx⟩ := List.mem_map.mp hx'
      by_cases hcond : z.name = t₂.name
      · rw [← hzx]
        simp [beq_iff_eq, hcond]
      · rw [← hzx] at hxname
        rw [if_neg (by simp [beq_iff_eq, hcond])] at hxname
        exact absurd hxname hcond

/-- C9 witness: saving into the empty ledger appends; saving an updated
same-named plan twice keeps length 1 and retains the latest values. -/
theorem ledger_upsert_check :
    handleSaveTrail [] wugongSeed = [] ++ [wugongSeed]
    ∧ (handleSaveTrail [wugongSeed] wugongSeedV2
        = [wugongSeed].map
            (fun t => if t.name == wugongSeedV2.name then wugongSeedV2 else t)
      ∧ (handleSaveTrail [wugongSeed] wugongSeedV2).length = [wugongSeed].length)
    ∧ ((handleSaveTrail (handleSaveTrail [wugongSeed] wugongSeedV2) wugongSeedV2).length
        = (handleSaveTrail [wugongSeed] wugongSeedV2).length
      ∧ wugongSeedV2
          ∈ handleSaveTrail (handleSaveTrail [wugongSeed] wugongSeedV2) wugongSeedV2
      ∧ ∀ x ∈ handleSaveTrail (handleSaveTrail [wugongSeed] wugongSeedV2) wugongSeedV2,
          x.name = wugongSeedV2.name → x = wugongSeedV2) :=
  ⟨(ledger_upsert [] wugongSeed).1 (by simp),
   (ledger_upsert [wugongSeed] wugongSeedV2).2.1
     ⟨wugongSeed, by simp, by decide⟩,
   (ledger_upsert [wugongSeed] wugongSeedV2).2.2 wugongSeedV2 rfl⟩

/-! ## The routes-stage output contract -/

/-- C7 counterexample: a provider response whose text is the valid JSON
`\x7b\x7d` (the empty object) is accepted by the routes stage as a
successful result — `generateTrailRoutes` only runs `safeParseJSON` — even
though it has no `routeSegments` at all, let alone exactly two distinct
segments with non-empty timelines; the structural mismatch is not treated
as a parse failure. -/
theorem routes_contract_counterexample :
    generateTrailRoutes parseEmptyObj (some "\x7b\x7d") = .ok (Json.obj [])
    ∧ routesSpecConformant (Json.obj []) = false :=
  ⟨rfl, rfl⟩

/-- C7 amended (theorem): the routes stage's success is exactly JSON
well-formedness — `generateTrailRoutes` returns `.ok j` precisely when the
response text is present, non-empty, and its fence-stripped form parses to
`j`; no local validation of the schema structure (two distinct segments,
non-empty timelines) is applied, so the result is `.ok j` whether or not
`routesSpecConformant j` holds. -/
theorem routes_stage_parse_only (parse : String → Option Json)
    (respText : Option String) (j : Json) :
    generateTrailRoutes parse respText = .ok j
      ↔ ∃ t : String, respText = some t ∧ (t == "") = false
          ∧ parse (stripCodeFences t) = some j := by
  constructor
  · intro h
    cases respText with
    | none => simp [generateTrailRoutes, safeParseJSON] at h
    | some t =>
      cases ht : (t == "") with
      | true => simp [generateTrailRoutes, safeParseJSON, ht] at h
      | false =>
        cases hp : parse (stripCodeFences t) with
        | none => simp [generateTrailRoutes, safeParseJSON, ht, hp] at h
        | some j2 =>
          simp only [generateTrailRoutes, safeParseJSON, ht,
            Bool.false_eq_true, if_false, hp, Except.ok.injEq] at h
          exact ⟨t, rfl, ht, by rw [hp, h]⟩
  · rintro ⟨t, rfl, ht, hp⟩
    simp [generateTrailRoutes, safeParseJSON, ht, hp]
